import Mathlib

/-!
Shallow embedding of the OpenColorIO `Lut3DOpData` core
(src/OpenColorIO/ops/Lut3D/Lut3DOpData.cpp).

Stored float samples are modelled as rationals (`ℚ`); the C++ throws
are modelled with `Except String`.  Helpers that live outside the file
under verification (`BitDepthUtils`, `FormatMetadataImpl::combine`,
MD5, the op-pipeline evaluator `EvalTransform`) are either modelled
from the specification (and say so in their doc comment) or abstracted
as parameters.
-/

/-- Bit-depth tags, from `OpenColorIO.h` as described by the spec (§3). -/
inductive BitDepth
  | U8 | U10 | U12 | U16 | F16 | F32
deriving DecidableEq

/-- Modelled from the spec: `GetBitDepthMaxValue` of `BitDepthUtils.h`
(not under src/); the spec lists M(d) = 255, 1023, 4095, 65535, 1.0, 1.0. -/
def GetBitDepthMaxValue : BitDepth → ℚ
  | BitDepth.U8 => 255
  | BitDepth.U10 => 1023
  | BitDepth.U12 => 4095
  | BitDepth.U16 => 65535
  | BitDepth.F16 => 1
  | BitDepth.F32 => 1

/-- Interpolation selector of a LUT3D. -/
inductive Interpolation
  | default | linear | nearest | tetrahedral | cubic | best | unknown
deriving DecidableEq

/-- Transform direction of a LUT3D. -/
inductive TransformDirection
  | forward | inverse
deriving DecidableEq

/-- LUT inversion quality hint. -/
inductive LutInversionQuality
  | fast | exact | best | default
deriving DecidableEq

/-- Modelled from the spec: the slice of `FormatMetadataImpl` the LUT3D
core uses (the class is not under src/): a name attribute and an ordered
list of child descriptors, each a (element-name, value) pair. -/
structure FormatMetadata where
  name : String
  children : List (String × String)
deriving DecidableEq

/-- Modelled from the spec: `FormatMetadataImpl::combine` (not under src/).
"Metadata merge must concatenate child descriptors (order-preserving) and,
for a named node, join names as `\x22<a> + <b>\x22`." -/
def FormatMetadata.combine (a b : FormatMetadata) : FormatMetadata :=
  { name := a.name ++ " + " ++ b.name
    children := a.children ++ b.children }

/-- An empty root metadata node. -/
def FormatMetadata.root : FormatMetadata := { name := "", children := [] }

/-- `Lut3DOpData::maxSupportedLength` (129 allows a MESH dimension of 7
in the 3dl file format). -/
def maxSupportedLength : Nat := 129

/-- The sample array of a LUT3D: edge length, channel count and the raw
float buffer, blue changing fastest among samples, channels fastest
overall (`Lut3DOpData::Lut3DArray`). -/
structure Lut3DArray where
  length : Nat
  numColorComponents : Nat
  values : List ℚ
deriving DecidableEq

/-- `Lut3DArray::getMaxColorComponents` is the constant 3. -/
def getMaxColorComponents : Nat := 3

/-- `Lut3DArray::getNumValues`: entries times channels. -/
def Lut3DArray.getNumValues (a : Lut3DArray) : Nat :=
  a.length * a.length * a.length * a.numColorComponents

/-- The identity-fill value at flat buffer position `t` (with `idx = t / 3`
the sample index and `t % 3` the channel), matching the loop body of
`Lut3DArray::fill`: red is `(idx / L / L) % L`, green `(idx / L) % L`,
blue `idx % L`, each times the step. -/
def fillVal (L : Nat) (step : ℚ) (t : Nat) : ℚ :=
  let idx := t / 3
  match t % 3 with
  | 0 => ((idx / L / L) % L : Nat) * step
  | 1 => ((idx / L) % L : Nat) * step
  | _ => (idx % L : Nat) * step

/-- `Lut3DArray::fill`: write the identity LUT for the given output
bit-depth, step `M(d) / (L - 1)`. -/
def Lut3DArray.fill (a : Lut3DArray) (outBitDepth : BitDepth) : Lut3DArray :=
  let L := a.length
  let step : ℚ := GetBitDepthMaxValue outBitDepth / ((L : ℚ) - 1)
  { a with values := (List.range (3 * (L * L * L))).map (fillVal L step) }

/-- `Lut3DArray::resize`: checks the length bound before touching the
storage; the base `Array::resize` reinitializes the buffer. -/
def Lut3DArray.resize (_a : Lut3DArray) (length numColorComponents : Nat) :
    Except String Lut3DArray :=
  if length > maxSupportedLength then
    Except.error ("LUT 3D: Grid size '" ++ toString length
      ++ "' must not be greater than '" ++ toString maxSupportedLength ++ "'.")
  else
    Except.ok { length := length
                numColorComponents := numColorComponents
                values := List.replicate (length * length * length * numColorComponents) 0 }

/-- `EqualWithAbsError` from `MathUtils.h`: absolute error comparison. -/
def EqualWithAbsError (a b tol : ℚ) : Bool := decide (|a - b| ≤ tol)

/-- `Lut3DArray::isIdentity`: every channel of every sample equals its
identity-ramp value within 1e-4 absolute. -/
def Lut3DArray.isIdentity (a : Lut3DArray) (outBitDepth : BitDepth) : Bool :=
  let L := a.length
  let stepSize : ℚ := GetBitDepthMaxValue outBitDepth / ((L : ℚ) - 1)
  (List.range (L * L * L)).all fun i =>
    EqualWithAbsError (a.values.getD (3 * i) 0)
        (((i / L / L) % L : Nat) * stepSize) (1 / 10000) &&
    EqualWithAbsError (a.values.getD (3 * i + 1) 0)
        (((i / L) % L : Nat) * stepSize) (1 / 10000) &&
    EqualWithAbsError (a.values.getD (3 * i + 2) 0)
        ((i % L : Nat) * stepSize) (1 / 10000)

/-- `Lut3DArray::getRGB`: the triple stored for grid node (i, j, k),
at offset `(i·L² + j·L + k) · channels`. -/
def Lut3DArray.getRGB (a : Lut3DArray) (i j k : Nat) : ℚ × ℚ × ℚ :=
  let offset := (i * a.length * a.length + j * a.length + k) * getMaxColorComponents
  (a.values.getD offset 0, a.values.getD (offset + 1) 0, a.values.getD (offset + 2) 0)

/-- `Lut3DArray::scale`: multiply every float by the factor; skipped
when the factor is exactly 1.0. -/
def Lut3DArray.scale (a : Lut3DArray) (scaleFactor : ℚ) : Lut3DArray :=
  if scaleFactor = 1 then a
  else { a with values := a.values.map (fun v => v * scaleFactor) }

/-- The LUT3D operator data: sample array plus bit-depth tags,
interpolation, direction, inversion-quality hint, metadata and the
cache ID populated by `finalize`. -/
structure Lut3DOpData where
  bitDepthIn : BitDepth
  bitDepthOut : BitDepth
  metadata : FormatMetadata
  interpolation : Interpolation
  array : Lut3DArray
  direction : TransformDirection
  invQuality : LutInversionQuality
  cacheID : String
deriving DecidableEq

/-- The single-argument constructor `Lut3DOpData(gridSize)`: F32 depths,
default interpolation, forward direction, fast inversion quality,
identity fill (the array constructor resizes then fills). -/
def Lut3DOpData.new (gridSize : Nat) : Except String Lut3DOpData :=
  match Lut3DArray.resize ⟨0, 0, []⟩ gridSize getMaxColorComponents with
  | Except.error e => Except.error e
  | Except.ok a => Except.ok
    { bitDepthIn := BitDepth.F32
      bitDepthOut := BitDepth.F32
      metadata := FormatMetadata.root
      interpolation := Interpolation.default
      array := a.fill BitDepth.F32
      direction := TransformDirection.forward
      invQuality := LutInversionQuality.fast
      cacheID := "" }

/-- The full constructor `Lut3DOpData(inBitDepth, outBitDepth, metadata,
interpolation, gridSize)`: forward direction, fast inversion quality,
identity fill at the output bit-depth. -/
def Lut3DOpData.newFull (inBitDepth outBitDepth : BitDepth)
    (metadata : FormatMetadata) (interpolation : Interpolation)
    (gridSize : Nat) : Except String Lut3DOpData :=
  match Lut3DArray.resize ⟨0, 0, []⟩ gridSize getMaxColorComponents with
  | Except.error e => Except.error e
  | Except.ok a => Except.ok
    { bitDepthIn := inBitDepth
      bitDepthOut := outBitDepth
      metadata := metadata
      interpolation := interpolation
      array := a.fill outBitDepth
      direction := TransformDirection.forward
      invQuality := LutInversionQuality.fast
      cacheID := "" }

/-- `Lut3DOpData::clone`: a deep copy (value semantics in the model). -/
def Lut3DOpData.clone (l : Lut3DOpData) : Lut3DOpData := l

/-- `Lut3DOpData::setOutputBitDepth`: on a forward LUT scale the array
by `M(new) / M(old)` and update the tag; otherwise only the tag. -/
def Lut3DOpData.setOutputBitDepth (l : Lut3DOpData) (out : BitDepth) : Lut3DOpData :=
  if l.direction = TransformDirection.forward then
    let scaleFactor := GetBitDepthMaxValue out / GetBitDepthMaxValue l.bitDepthOut
    { l with array := l.array.scale scaleFactor, bitDepthOut := out }
  else
    { l with bitDepthOut := out }

/-- `Lut3DOpData::setInputBitDepth`: on an inverse LUT scale the array
by `M(new) / M(old input)` and update the tag; otherwise only the tag. -/
def Lut3DOpData.setInputBitDepth (l : Lut3DOpData) (inp : BitDepth) : Lut3DOpData :=
  if l.direction = TransformDirection.inverse then
    let scaleFactor := GetBitDepthMaxValue inp / GetBitDepthMaxValue l.bitDepthIn
    { l with array := l.array.scale scaleFactor, bitDepthIn := inp }
  else
    { l with bitDepthIn := inp }

/-- The raw `OpData::setOutputBitDepth`: tag only, never rescales
(used by `inverse()` to swap depths without scaling). -/
def Lut3DOpData.setOutputBitDepthRaw (l : Lut3DOpData) (out : BitDepth) : Lut3DOpData :=
  { l with bitDepthOut := out }

/-- The raw `OpData::setInputBitDepth`: tag only, never rescales. -/
def Lut3DOpData.setInputBitDepthRaw (l : Lut3DOpData) (inp : BitDepth) : Lut3DOpData :=
  { l with bitDepthIn := inp }

/-- `Lut3DOpData::inverse`: clone, flip the direction, swap the
bit-depth tags through the raw setters (no rescale). -/
def Lut3DOpData.inverse (l : Lut3DOpData) : Lut3DOpData :=
  let invLut := l.clone
  let invLut := { invLut with direction :=
    if l.direction = TransformDirection.forward then TransformDirection.inverse
    else TransformDirection.forward }
  ((invLut.setInputBitDepthRaw l.bitDepthOut).setOutputBitDepthRaw l.bitDepthIn)

/-- `Lut3DOpData::haveEqualBasics`: structural equality of the arrays. -/
def Lut3DOpData.haveEqualBasics (l b : Lut3DOpData) : Bool :=
  decide (l.array = b.array)

/-- The static `Lut3DOpData::isInverse(lutfwd, lutinv)`: equal max
values lets the arrays be compared directly; otherwise quick-fail on
the raw value count, then clone the forward LUT, rescale its output
bit-depth to the inverse LUT's input bit-depth and compare. -/
def Lut3DOpData.isInversePair (lutfwd lutinv : Lut3DOpData) : Bool :=
  if GetBitDepthMaxValue lutfwd.bitDepthOut ≠ GetBitDepthMaxValue lutinv.bitDepthIn then
    if lutfwd.array.values.length ≠ lutinv.array.values.length then
      false
    else
      let scaledLut := lutfwd.clone.setOutputBitDepth lutinv.bitDepthIn
      scaledLut.haveEqualBasics lutinv
  else
    lutfwd.haveEqualBasics lutinv

/-- The member `Lut3DOpData::isInverse(B)`: requires one forward and
one inverse operand, then delegates to the static check with the
forward one first. -/
def Lut3DOpData.isInverse (l b : Lut3DOpData) : Bool :=
  if l.direction = TransformDirection.forward ∧
     b.direction = TransformDirection.inverse then
    Lut3DOpData.isInversePair l b
  else if l.direction = TransformDirection.inverse ∧
          b.direction = TransformDirection.forward then
    Lut3DOpData.isInversePair b l
  else
    false

/-- The anonymous-namespace `IsValid(interpolation)` check used by
`Lut3DOpData::validate`. -/
def IsValid : Interpolation → Bool
  | Interpolation.best => true
  | Interpolation.tetrahedral => true
  | Interpolation.default => true
  | Interpolation.linear => true
  | Interpolation.nearest => true
  | Interpolation.cubic => false
  | Interpolation.unknown => false

/-- Modelled from the spec: the base `Array::validate` (not under src/);
the spec's data model fixes the storage to a contiguous buffer of
`getNumValues` floats, which is what is checked here. -/
def Lut3DArray.validate (a : Lut3DArray) : Except String Unit :=
  if a.values.length ≠ a.getNumValues then
    Except.error "Array content issue."
  else
    Except.ok ()

/-- `Lut3DOpData::validate`: invalid interpolation, array content,
channel count and grid-size bound, in the order of the source. (The
base `OpData::validate` has nothing to reject in this data model:
every `BitDepth` of the spec is a concrete depth.) -/
def Lut3DOpData.validate (l : Lut3DOpData) : Except String Unit :=
  if ¬(IsValid l.interpolation) then
    Except.error "Lut3D has an invalid interpolation type. "
  else
    match l.array.validate with
    | Except.error e => Except.error ("Lut3D content array issue: " ++ e)
    | Except.ok () =>
      if l.array.numColorComponents ≠ 3 then
        Except.error "Lut3D has an incorrect number of color components. "
      else if l.array.length > maxSupportedLength then
        Except.error ("Lut3D length: " ++ toString l.array.length ++ " is not supported. ")
      else
        Except.ok ()

/-- `Lut3DOpData::isNoOp`: a 3D LUT clamps to its domain, so never. -/
def Lut3DOpData.isNoOp (_l : Lut3DOpData) : Bool := false

/-- `Lut3DOpData::isIdentity`: delegates to the array at the output
bit-depth. -/
def Lut3DOpData.isIdentity (l : Lut3DOpData) : Bool :=
  l.array.isIdentity l.bitDepthOut

/-- Modelled from the spec: `hasChannelCrosstalk` (declared outside
src/) is always true for a LUT3D. -/
def Lut3DOpData.hasChannelCrosstalk (_l : Lut3DOpData) : Bool := true

/-- Modelled from the spec: `InterpolationToString` (not under src/);
what the cache ID needs is an injective, space-free token per value. -/
def InterpolationToString : Interpolation → String
  | Interpolation.default => "default"
  | Interpolation.linear => "linear"
  | Interpolation.nearest => "nearest"
  | Interpolation.tetrahedral => "tetrahedral"
  | Interpolation.cubic => "cubic"
  | Interpolation.best => "best"
  | Interpolation.unknown => "unknown"

/-- Modelled from the spec: `TransformDirectionToString` (not under
src/); an injective, space-free token per direction. -/
def TransformDirectionToString : TransformDirection → String
  | TransformDirection.forward => "forward"
  | TransformDirection.inverse => "inverse"

/-- Modelled from the spec: `BitDepthToString` (not under src/); an
injective, space-free token per bit-depth. -/
def BitDepthToString : BitDepth → String
  | BitDepth.U8 => "8ui"
  | BitDepth.U10 => "10ui"
  | BitDepth.U12 => "12ui"
  | BitDepth.U16 => "16ui"
  | BitDepth.F16 => "16f"
  | BitDepth.F32 => "32f"

/-- `Lut3DOpData::finalize`: validate, hash the raw float buffer, then
append the interpolation, direction and bit-depth tokens separated by
single spaces (no trailing space; inversion quality excluded).  The MD5
computation itself lives in md5/md5.h (not under src/), so the digest
renderer is a parameter `md5hex`, a content fingerprint rendered as a
32-hex-character string per the spec. -/
def Lut3DOpData.finalize (md5hex : List ℚ → String) (l : Lut3DOpData) :
    Except String Lut3DOpData :=
  match l.validate with
  | Except.error e => Except.error e
  | Except.ok () =>
    Except.ok { l with cacheID :=
      (md5hex l.array.values ++ " "
        ++ InterpolationToString l.interpolation ++ " "
        ++ TransformDirectionToString l.direction ++ " "
        ++ BitDepthToString l.bitDepthIn ++ " "
        ++ BitDepthToString l.bitDepthOut) }

/-- `Lut3DOpData::setInterpolation`: stored verbatim. -/
def Lut3DOpData.setInterpolation (l : Lut3DOpData) (algo : Interpolation) : Lut3DOpData :=
  { l with interpolation := algo }

/-- `Lut3DOpData::setInversionQuality`: stored verbatim. -/
def Lut3DOpData.setInversionQuality (l : Lut3DOpData) (style : LutInversionQuality) : Lut3DOpData :=
  { l with invQuality := style }

/-- The flat-buffer index permutation of
`Lut3DOpData::setArrayFromRedFastestOrder`: position `t` of the
blue-fastest array (sample `idx = t / 3`, channel `t % 3`, with
`idx = (r·L + g)·L + b`) reads the red-fastest position
`3·((b·L + g)·L + r) + t % 3`. -/
def redFastIdx (L t : Nat) : Nat :=
  let idx := t / 3
  let b := idx % L
  let g := (idx / L) % L
  let r := idx / L / L
  3 * ((b * L + g) * L + r) + t % 3

/-- `Lut3DOpData::setArrayFromRedFastestOrder`: checks the vector size,
then repacks from red-fastest into blue-fastest sample order. -/
def Lut3DOpData.setArrayFromRedFastestOrder (l : Lut3DOpData) (lut : List ℚ) :
    Except String Lut3DOpData :=
  let lutSize := l.array.length
  if lutSize * lutSize * lutSize * 3 ≠ lut.length then
    Except.error "Lut3DOpData length does not match the vector size."
  else
    Except.ok { l with array :=
      { l.array with values :=
          ((List.range (3 * (lutSize * lutSize * lutSize))).map
            (fun t => lut.getD (redFastIdx lutSize t) 0)) } }

/-- An operator of the evaluation pipeline assembled by `Compose`: a
per-channel scale op (RGB factors plus alpha) or a LUT3D op.  The
pipeline runtime that evaluates them is outside the core. -/
inductive Op
  | scale (r g b a : ℚ)
  | lut3d (l : Lut3DOpData)

/-- The type of the op-pipeline evaluator `EvalTransform` (outside the
core): ops plus an input float buffer give the output float buffer. -/
def EvalTransformType : Type := List Op → List ℚ → List ℚ

/-- `Lut3DOpData::Compose(A, B)`: bit-depth precondition, domain
selection (reuse A's grid when it is at least as fine, else a fresh
identity domain of B's size sampled through A), the op pipeline
(normalizing scale or A, then a clone of B, then the output scale),
metadata merge, and the replacement LUT3D whose array is the pipeline
output over the domain samples.  The pipeline evaluation itself is the
out-of-scope `EvalTransform`, passed as `evalT`. -/
def Lut3DOpData.Compose (evalT : EvalTransformType) (A B : Lut3DOpData) :
    Except String Lut3DOpData :=
  if A.bitDepthOut ≠ B.bitDepthIn then
    Except.error "A bit depth mismatch forbids the composition of LUTs"
  else
    match (if A.array.length ≥ B.array.length then
            Except.ok ([Op.scale (1 / GetBitDepthMaxValue A.bitDepthOut)
                          (1 / GetBitDepthMaxValue A.bitDepthOut)
                          (1 / GetBitDepthMaxValue A.bitDepthOut) 1], A)
          else
            match Lut3DOpData.newFull A.bitDepthIn BitDepth.F32
                    A.metadata A.interpolation B.array.length with
            | Except.error e => Except.error e
            | Except.ok d => Except.ok ([Op.lut3d A], d) :
            Except String (List Op × Lut3DOpData)) with
    | Except.error e => Except.error e
    | Except.ok (ops0, domain) =>
      match Lut3DOpData.newFull A.bitDepthIn B.bitDepthOut
              (A.metadata.combine B.metadata) A.interpolation 2 with
      | Except.error e => Except.error e
      | Except.ok A1 =>
        match A1.array.resize domain.array.length 3 with
        | Except.error e => Except.error e
        | Except.ok arr =>
          Except.ok { A1 with array := { arr with values :=
            (evalT (ops0 ++ [Op.lut3d B.clone]
                ++ [Op.scale (GetBitDepthMaxValue B.bitDepthOut)
                      (GetBitDepthMaxValue B.bitDepthOut)
                      (GetBitDepthMaxValue B.bitDepthOut) 1])
              domain.array.values) } }

/-- `MakeFastLut3DFromInverse`: requires an inverse LUT; force the
exact inversion style for the build (the scoped `LutStyleGuard`, whose
restore is automatic in this value semantics), build a 48-grid forward
identity domain at the inverse LUT's input bit-depth on both sides,
and compose it with the inverse LUT. -/
def MakeFastLut3DFromInverse (evalT : EvalTransformType) (lut : Lut3DOpData) :
    Except String Lut3DOpData :=
  if lut.direction ≠ TransformDirection.inverse then
    Except.error "MakeFastLut3DFromInverse expects an inverse LUT"
  else
    let guarded := { lut with invQuality := LutInversionQuality.exact }
    match Lut3DOpData.new 48 with
    | Except.error e => Except.error e
    | Except.ok newDomain =>
      let newDomain := newDomain.setInputBitDepth lut.bitDepthIn
      let newDomain := newDomain.setOutputBitDepth lut.bitDepthIn
      Lut3DOpData.Compose evalT newDomain guarded

/-- The LUT3Ds reachable through the public LUT3D-level operations of
the spec's §4.2 contract, applied within their documented input
constraints: the two constructors (at a valid edge length 2 ≤ L ≤ 129),
the mutators, `clone`, `inverse`, `Compose` and
`MakeFastLut3DFromInverse`. -/
inductive Reachable : Lut3DOpData → Prop
  | new (L : Nat) (l : Lut3DOpData) : 2 ≤ L → L ≤ 129 →
      Lut3DOpData.new L = Except.ok l → Reachable l
  | newFull (bdIn bdOut : BitDepth) (md : FormatMetadata)
      (interp : Interpolation) (L : Nat) (l : Lut3DOpData) :
      2 ≤ L → L ≤ 129 →
      Lut3DOpData.newFull bdIn bdOut md interp L = Except.ok l → Reachable l
  | setInterpolation (l : Lut3DOpData) (algo : Interpolation) :
      Reachable l → Reachable (l.setInterpolation algo)
  | setInversionQuality (l : Lut3DOpData) (q : LutInversionQuality) :
      Reachable l → Reachable (l.setInversionQuality q)
  | setInputBitDepth (l : Lut3DOpData) (d : BitDepth) :
      Reachable l → Reachable (l.setInputBitDepth d)
  | setOutputBitDepth (l : Lut3DOpData) (d : BitDepth) :
      Reachable l → Reachable (l.setOutputBitDepth d)
  | setArrayFromRedFastestOrder (l r : Lut3DOpData) (v : List ℚ) :
      Reachable l → l.setArrayFromRedFastestOrder v = Except.ok r → Reachable r
  | clone (l : Lut3DOpData) : Reachable l → Reachable l.clone
  | inverse (l : Lut3DOpData) : Reachable l → Reachable l.inverse
  | compose (evalT : EvalTransformType) (A B C : Lut3DOpData) :
      Reachable A → Reachable B →
      Lut3DOpData.Compose evalT A B = Except.ok C → Reachable C
  | makeFast (evalT : EvalTransformType) (l C : Lut3DOpData) :
      Reachable l → MakeFastLut3DFromInverse evalT l = Except.ok C → Reachable C

/-! ### Helper lemmas -/

theorem Lut3DArray.resize_ok (a : Lut3DArray) (L c : Nat) (h : L ≤ maxSupportedLength) :
    a.resize L c = Except.ok ⟨L, c, List.replicate (L * L * L * c) 0⟩ := by
  simp [Lut3DArray.resize, Nat.not_lt.mpr h]

theorem Lut3DArray.scale_length (a : Lut3DArray) (k : ℚ) :
    (a.scale k).length = a.length := by
  unfold Lut3DArray.scale; split <;> rfl

theorem Lut3DArray.scale_numColorComponents (a : Lut3DArray) (k : ℚ) :
    (a.scale k).numColorComponents = a.numColorComponents := by
  unfold Lut3DArray.scale; split <;> rfl

theorem Lut3DArray.scale_values_length (a : Lut3DArray) (k : ℚ) :
    (a.scale k).values.length = a.values.length := by
  unfold Lut3DArray.scale; split <;> simp

theorem Lut3DArray.scale_values_getD (a : Lut3DArray) (k : ℚ) (i : Nat)
    (h : i < a.values.length) :
    (a.scale k).values.getD i 0 = a.values.getD i 0 * k := by
  unfold Lut3DArray.scale
  split
  · next hk => rw [hk, mul_one]
  · simp [List.getD, List.getElem?_map, List.getElem?_eq_getElem h]

/-! ### C5: inverse flips direction, swaps depths, keeps the array -/

/-- C5: `inverse()` returns a LUT3D whose direction is flipped and whose
input/output bit-depths are swapped while the stored array is not
rescaled (identical to the original's); applying `inverse()` twice
restores both bit-depths and the array contents. -/
theorem inverse_flips_and_swaps_without_rescale (X : Lut3DOpData) :
    X.inverse.direction ≠ X.direction ∧
    X.inverse.bitDepthIn = X.bitDepthOut ∧
    X.inverse.bitDepthOut = X.bitDepthIn ∧
    X.inverse.array = X.array ∧
    X.inverse.inverse.bitDepthIn = X.bitDepthIn ∧
    X.inverse.inverse.bitDepthOut = X.bitDepthOut ∧
    X.inverse.inverse.array = X.array := by
  unfold Lut3DOpData.inverse Lut3DOpData.clone
    Lut3DOpData.setInputBitDepthRaw Lut3DOpData.setOutputBitDepthRaw
  refine ⟨?_, rfl, rfl, rfl, rfl, rfl, rfl⟩
  cases h : X.direction <;> simp [h]

/-! ### C10: isInverse is symmetric -/

/-- C10: `A.is_inverse(B)` and `B.is_inverse(A)` always return the same
boolean: the member check dispatches both calls to the same static
comparison with the forward operand first, and returns false whenever
the directions agree. -/
theorem isInverse_symm (A B : Lut3DOpData) :
    A.isInverse B = B.isInverse A := by
  unfold Lut3DOpData.isInverse
  cases hA : A.direction <;> cases hB : B.direction <;> simp [hA, hB]

theorem Lut3DArray.fill_length (a : Lut3DArray) (d : BitDepth) :
    (a.fill d).length = a.length := rfl

theorem Lut3DArray.fill_numColorComponents (a : Lut3DArray) (d : BitDepth) :
    (a.fill d).numColorComponents = a.numColorComponents := rfl

theorem Lut3DArray.fill_values_length (a : Lut3DArray) (d : BitDepth) :
    (a.fill d).values.length = 3 * (a.length * a.length * a.length) := by
  simp [Lut3DArray.fill]

theorem Lut3DOpData.newFull_ok (bdIn bdOut : BitDepth) (md : FormatMetadata)
    (interp : Interpolation) (L : Nat) (h : L ≤ maxSupportedLength) :
    Lut3DOpData.newFull bdIn bdOut md interp L = Except.ok
      { bitDepthIn := bdIn, bitDepthOut := bdOut, metadata := md,
        interpolation := interp,
        array := (Lut3DArray.mk L 3 (List.replicate (L * L * L * 3) 0)).fill bdOut,
        direction := TransformDirection.forward,
        invQuality := LutInversionQuality.fast, cacheID := "" } := by
  unfold Lut3DOpData.newFull
  rw [Lut3DArray.resize_ok _ _ _ h]
  rfl

theorem Lut3DOpData.new_ok (L : Nat) (h : L ≤ maxSupportedLength) :
    Lut3DOpData.new L = Except.ok
      { bitDepthIn := BitDepth.F32, bitDepthOut := BitDepth.F32,
        metadata := FormatMetadata.root,
        interpolation := Interpolation.default,
        array := (Lut3DArray.mk L 3 (List.replicate (L * L * L * 3) 0)).fill BitDepth.F32,
        direction := TransformDirection.forward,
        invQuality := LutInversionQuality.fast, cacheID := "" } := by
  unfold Lut3DOpData.new
  rw [Lut3DArray.resize_ok _ _ _ h]
  rfl

theorem Lut3DArray.resize_ok_inv (a r : Lut3DArray) (L c : Nat)
    (h : a.resize L c = Except.ok r) :
    r.length = L ∧ r.numColorComponents = c ∧ L ≤ maxSupportedLength := by
  unfold Lut3DArray.resize at h
  split at h
  · cases h
  · next hle =>
    injection h with h'
    subst h'
    exact ⟨rfl, rfl, Nat.not_lt.mp hle⟩

theorem Lut3DOpData.newFull_fields (bdIn bdOut : BitDepth) (md : FormatMetadata)
    (interp : Interpolation) (L : Nat) (l : Lut3DOpData)
    (h : Lut3DOpData.newFull bdIn bdOut md interp L = Except.ok l) :
    l.bitDepthIn = bdIn ∧ l.bitDepthOut = bdOut ∧ l.metadata = md ∧
    l.interpolation = interp ∧ l.direction = TransformDirection.forward ∧
    l.invQuality = LutInversionQuality.fast ∧ l.cacheID = "" ∧
    l.array.length = L ∧ l.array.numColorComponents = 3 ∧
    L ≤ maxSupportedLength := by
  unfold Lut3DOpData.newFull at h
  split at h
  · cases h
  · next a ha =>
    injection h with h'
    subst h'
    rcases Lut3DArray.resize_ok_inv _ _ _ _ ha with ⟨h1, h2, h3⟩
    refine ⟨rfl, rfl, rfl, rfl, rfl, rfl, rfl, ?_, ?_, h3⟩
    · simpa [Lut3DArray.fill_length] using h1
    · simpa [Lut3DArray.fill_numColorComponents] using h2

theorem Lut3DOpData.Compose_ok_fields (evalT : EvalTransformType)
    (A B C : Lut3DOpData) (h : Lut3DOpData.Compose evalT A B = Except.ok C) :
    C.array.length = max A.array.length B.array.length ∧
    C.array.numColorComponents = 3 ∧
    C.bitDepthIn = A.bitDepthIn ∧
    C.bitDepthOut = B.bitDepthOut ∧
    C.interpolation = A.interpolation ∧
    C.metadata = A.metadata.combine B.metadata ∧
    C.direction = TransformDirection.forward ∧
    C.invQuality = LutInversionQuality.fast ∧
    A.bitDepthOut = B.bitDepthIn := by
  unfold Lut3DOpData.Compose at h
  split at h
  · cases h
  · next hbd =>
    rw [not_not] at hbd
    split at h
    · cases h
    · next ops0 domain heq =>
      split at h
      · cases h
      · next A1 hA1 =>
        split at h
        · cases h
        · next arr harr =>
          cases h
          rcases Lut3DArray.resize_ok_inv _ _ _ _ harr with ⟨hlen, hncc, _⟩
          rcases Lut3DOpData.newFull_fields _ _ _ _ _ _ hA1 with
            ⟨f1, f2, f3, f4, f5, f6, _, _, _, _⟩
          refine ⟨?_, hncc, f1, f2, f4, f3, f5, f6, hbd⟩
          split at heq
          · next hge =>
            injection heq with h1
            rw [Prod.mk.injEq] at h1
            obtain ⟨-, hdom⟩ := h1
            subst hdom
            rw [hlen]
            exact (Nat.max_eq_left hge).symm
          · next hlt =>
            split at heq
            · cases heq
            · next d hd =>
              injection heq with h1
              rw [Prod.mk.injEq] at h1
              obtain ⟨-, hdom⟩ := h1
              subst hdom
              rcases Lut3DOpData.newFull_fields _ _ _ _ _ _ hd with
                ⟨_, _, _, _, _, _, _, hdl, _, _⟩
              rw [hlen, hdl]
              exact (Nat.max_eq_right (Nat.le_of_lt (Nat.lt_of_not_le hlt))).symm

theorem Lut3DOpData.Compose_spec (evalT : EvalTransformType) (A B : Lut3DOpData)
    (hbd : A.bitDepthOut = B.bitDepthIn)
    (hA : A.array.length ≤ maxSupportedLength)
    (hB : B.array.length ≤ maxSupportedLength) :
    ∃ C, Lut3DOpData.Compose evalT A B = Except.ok C := by
  unfold Lut3DOpData.Compose
  rw [if_neg (by simp [hbd])]
  by_cases hge : A.array.length ≥ B.array.length
  · rw [if_pos hge]
    rw [Lut3DOpData.newFull_ok _ _ _ _ 2 (by norm_num [maxSupportedLength])]
    dsimp only
    rw [Lut3DArray.resize_ok _ _ _ hA]
    exact ⟨_, rfl⟩
  · rw [if_neg hge]
    rw [Lut3DOpData.newFull_ok _ _ _ _ _ hB]
    dsimp only
    rw [Lut3DOpData.newFull_ok _ _ _ _ 2 (by norm_num [maxSupportedLength])]
    dsimp only
    simp only [Lut3DArray.fill_length]
    rw [Lut3DArray.resize_ok _ _ _ hB]
    exact ⟨_, rfl⟩

/-- A trivial pipeline evaluator used to instantiate theorems at
concrete inputs (the evaluator is external to the core, and the
structural theorems hold for every evaluator). -/
def evalZero : EvalTransformType := fun _ _ => []

/-! ### C1: structure of a successful composition -/

/-- C1: for LUT3Ds `A`, `B` with `A.bd_out = B.bd_in`, after
`compose(A, B)` succeeds the replacement LUT3D has edge length
`max(A.L, B.L)`, input bit-depth `A.bd_in`, output bit-depth `B.bd_out`,
interpolation `A.interpolation`, and metadata the merge of `A`'s and
`B`'s metadata: child descriptors concatenated in order and the names
joined as `"<a> + <b>"`. -/
theorem Compose_result_structure (evalT : EvalTransformType) (A B C : Lut3DOpData)
    (_hbd : A.bitDepthOut = B.bitDepthIn)
    (h : Lut3DOpData.Compose evalT A B = Except.ok C) :
    C.array.length = max A.array.length B.array.length ∧
    C.bitDepthIn = A.bitDepthIn ∧
    C.bitDepthOut = B.bitDepthOut ∧
    C.interpolation = A.interpolation ∧
    C.metadata = A.metadata.combine B.metadata ∧
    C.metadata.children = A.metadata.children ++ B.metadata.children ∧
    C.metadata.name = A.metadata.name ++ " + " ++ B.metadata.name := by
  rcases Lut3DOpData.Compose_ok_fields evalT A B C h with
    ⟨h1, _, h3, h4, h5, h6, _, _, _⟩
  exact ⟨h1, h3, h4, h5, h6, by rw [h6]; rfl, by rw [h6]; rfl⟩

/-- A concrete forward LUT3D named lut1 with one child descriptor. -/
def W1A : Lut3DOpData :=
  ⟨BitDepth.F32, BitDepth.F32, ⟨"lut1", [("Description", "d1")]⟩,
   Interpolation.linear, ⟨2, 3, List.replicate 24 0⟩,
   TransformDirection.forward, LutInversionQuality.fast, ""⟩

/-- A concrete forward LUT3D named lut2 with one child descriptor. -/
def W1B : Lut3DOpData :=
  ⟨BitDepth.F32, BitDepth.F32, ⟨"lut2", [("Description", "d2")]⟩,
   Interpolation.tetrahedral, ⟨2, 3, List.replicate 24 0⟩,
   TransformDirection.forward, LutInversionQuality.fast, ""⟩

/-- The composition of `W1A` and `W1B` under the trivial evaluator. -/
def W1C : Lut3DOpData :=
  ⟨BitDepth.F32, BitDepth.F32,
   ⟨"lut1 + lut2", [("Description", "d1"), ("Description", "d2")]⟩,
   Interpolation.linear, ⟨2, 3, []⟩,
   TransformDirection.forward, LutInversionQuality.fast, ""⟩

/-- Witness for C1 at the concrete pair `W1A`, `W1B`. -/
theorem Compose_result_structure_witness :
    W1C.array.length = max W1A.array.length W1B.array.length ∧
    W1C.bitDepthIn = W1A.bitDepthIn ∧
    W1C.bitDepthOut = W1B.bitDepthOut ∧
    W1C.interpolation = W1A.interpolation ∧
    W1C.metadata = W1A.metadata.combine W1B.metadata ∧
    W1C.metadata.children = W1A.metadata.children ++ W1B.metadata.children ∧
    W1C.metadata.name = W1A.metadata.name ++ " + " ++ W1B.metadata.name :=
  Compose_result_structure evalZero W1A W1B W1C rfl (by rfl)

/-! ### C3: compose fails exactly on a bit-depth mismatch -/

/-- C3: `compose(A, B)` fails iff `A.bd_out` differs from `B.bd_in` (for
arrays within the supported grid bound), the failure message mentions
"bit depth mismatch", and the failing check precedes every mutation
(in this value semantics a failing `Compose` returns only the error, so
`A` and `B` are left untouched). -/
theorem Compose_fail_iff (evalT : EvalTransformType) (A B : Lut3DOpData)
    (hA : A.array.length ≤ maxSupportedLength)
    (hB : B.array.length ≤ maxSupportedLength) :
    ((∃ e, Lut3DOpData.Compose evalT A B = Except.error e) ↔
        A.bitDepthOut ≠ B.bitDepthIn) ∧
    (A.bitDepthOut ≠ B.bitDepthIn →
      Lut3DOpData.Compose evalT A B =
        Except.error "A bit depth mismatch forbids the composition of LUTs") ∧
    "bit depth mismatch".data <:+:
      "A bit depth mismatch forbids the composition of LUTs".data := by
  have herr : A.bitDepthOut ≠ B.bitDepthIn →
      Lut3DOpData.Compose evalT A B =
        Except.error "A bit depth mismatch forbids the composition of LUTs" := by
    intro hne
    unfold Lut3DOpData.Compose
    rw [if_pos hne]
  refine ⟨⟨?_, fun hne => ⟨_, herr hne⟩⟩, herr, by decide⟩
  rintro ⟨e, he⟩
  by_contra heq
  obtain ⟨C, hC⟩ := Lut3DOpData.Compose_spec evalT A B heq hA hB
  rw [hC] at he
  cases he

/-- A concrete forward LUT3D with output depth U10 for the C3 witness. -/
def W3A : Lut3DOpData :=
  ⟨BitDepth.F32, BitDepth.U10, ⟨"", []⟩, Interpolation.linear,
   ⟨2, 3, List.replicate 24 0⟩, TransformDirection.forward,
   LutInversionQuality.fast, ""⟩

/-- A concrete forward LUT3D with input depth U12 for the C3 witness. -/
def W3B : Lut3DOpData :=
  ⟨BitDepth.U12, BitDepth.F32, ⟨"", []⟩, Interpolation.linear,
   ⟨2, 3, List.replicate 24 0⟩, TransformDirection.forward,
   LutInversionQuality.fast, ""⟩

/-- Witness for C3 at the concrete mismatched pair `W3A`, `W3B`. -/
theorem Compose_fail_iff_witness :
    ((∃ e, Lut3DOpData.Compose evalZero W3A W3B = Except.error e) ↔
        W3A.bitDepthOut ≠ W3B.bitDepthIn) ∧
    (W3A.bitDepthOut ≠ W3B.bitDepthIn →
      Lut3DOpData.Compose evalZero W3A W3B =
        Except.error "A bit depth mismatch forbids the composition of LUTs") ∧
    "bit depth mismatch".data <:+:
      "A bit depth mismatch forbids the composition of LUTs".data :=
  Compose_fail_iff evalZero W3A W3B (by decide) (by decide)

/-! ### C4: bit-depth rescaling policy -/

/-- C4: on a forward LUT3D, `set_output_bit_depth(d')` multiplies every
stored value by `M(d') / M(d)` (so each result is within 1e-4 of the
prior value times the factor — here exactly equal) and sets `bd_out`;
on an inverse LUT3D the same scaling policy is applied by
`set_input_bit_depth` with factor `M(d') / M(bd_in)`, updating `bd_in`. -/
theorem setBitDepth_rescale (l : Lut3DOpData) (d : BitDepth) :
    (l.direction = TransformDirection.forward →
      (l.setOutputBitDepth d).bitDepthOut = d ∧
      (l.setOutputBitDepth d).array.values.length = l.array.values.length ∧
      ∀ i, i < l.array.values.length →
        |(l.setOutputBitDepth d).array.values.getD i 0 -
          l.array.values.getD i 0 *
            (GetBitDepthMaxValue d / GetBitDepthMaxValue l.bitDepthOut)| ≤
          1 / 10000) ∧
    (l.direction = TransformDirection.inverse →
      (l.setInputBitDepth d).bitDepthIn = d ∧
      (l.setInputBitDepth d).array.values.length = l.array.values.length ∧
      ∀ i, i < l.array.values.length →
        |(l.setInputBitDepth d).array.values.getD i 0 -
          l.array.values.getD i 0 *
            (GetBitDepthMaxValue d / GetBitDepthMaxValue l.bitDepthIn)| ≤
          1 / 10000) := by
  constructor
  · intro hf
    unfold Lut3DOpData.setOutputBitDepth
    rw [if_pos hf]
    refine ⟨rfl, Lut3DArray.scale_values_length _ _, ?_⟩
    intro i hi
    rw [Lut3DArray.scale_values_getD _ _ _ hi]
    simp
  · intro hi
    unfold Lut3DOpData.setInputBitDepth
    rw [if_pos hi]
    refine ⟨rfl, Lut3DArray.scale_values_length _ _, ?_⟩
    intro i hilt
    rw [Lut3DArray.scale_values_getD _ _ _ hilt]
    simp

/-- A concrete forward LUT3D (U8 to U10) for the C4 witness. -/
def W4f : Lut3DOpData :=
  ⟨BitDepth.U8, BitDepth.U10, ⟨"", []⟩, Interpolation.linear,
   ⟨2, 3, List.replicate 24 0⟩, TransformDirection.forward,
   LutInversionQuality.fast, ""⟩

/-- A concrete inverse LUT3D (U10 to U8) for the C4 witness. -/
def W4i : Lut3DOpData :=
  ⟨BitDepth.U10, BitDepth.U8, ⟨"", []⟩, Interpolation.linear,
   ⟨2, 3, List.replicate 24 0⟩, TransformDirection.inverse,
   LutInversionQuality.fast, ""⟩

/-- Witness for C4 at the concrete LUTs `W4f` (forward) and `W4i`
(inverse), at target depth U16. -/
theorem setBitDepth_rescale_witness :
    (W4f.setOutputBitDepth BitDepth.U16).bitDepthOut = BitDepth.U16 ∧
    (W4i.setInputBitDepth BitDepth.U16).bitDepthIn = BitDepth.U16 :=
  ⟨((setBitDepth_rescale W4f BitDepth.U16).1 rfl).1,
   ((setBitDepth_rescale W4i BitDepth.U16).2 rfl).1⟩

theorem Lut3DOpData.setOutputBitDepth_bitDepthOut (l : Lut3DOpData) (d : BitDepth) :
    (l.setOutputBitDepth d).bitDepthOut = d := by
  unfold Lut3DOpData.setOutputBitDepth; split <;> rfl

theorem Lut3DOpData.setOutputBitDepth_bitDepthIn (l : Lut3DOpData) (d : BitDepth) :
    (l.setOutputBitDepth d).bitDepthIn = l.bitDepthIn := by
  unfold Lut3DOpData.setOutputBitDepth; split <;> rfl

theorem Lut3DOpData.setOutputBitDepth_direction (l : Lut3DOpData) (d : BitDepth) :
    (l.setOutputBitDepth d).direction = l.direction := by
  unfold Lut3DOpData.setOutputBitDepth; split <;> rfl

theorem Lut3DOpData.setOutputBitDepth_array_length (l : Lut3DOpData) (d : BitDepth) :
    (l.setOutputBitDepth d).array.length = l.array.length := by
  unfold Lut3DOpData.setOutputBitDepth
  split
  · exact Lut3DArray.scale_length _ _
  · rfl

theorem Lut3DOpData.setOutputBitDepth_array_numColorComponents (l : Lut3DOpData) (d : BitDepth) :
    (l.setOutputBitDepth d).array.numColorComponents = l.array.numColorComponents := by
  unfold Lut3DOpData.setOutputBitDepth
  split
  · exact Lut3DArray.scale_numColorComponents _ _
  · rfl

theorem Lut3DOpData.setInputBitDepth_bitDepthIn (l : Lut3DOpData) (d : BitDepth) :
    (l.setInputBitDepth d).bitDepthIn = d := by
  unfold Lut3DOpData.setInputBitDepth; split <;> rfl

theorem Lut3DOpData.setInputBitDepth_bitDepthOut (l : Lut3DOpData) (d : BitDepth) :
    (l.setInputBitDepth d).bitDepthOut = l.bitDepthOut := by
  unfold Lut3DOpData.setInputBitDepth; split <;> rfl

theorem Lut3DOpData.setInputBitDepth_direction (l : Lut3DOpData) (d : BitDepth) :
    (l.setInputBitDepth d).direction = l.direction := by
  unfold Lut3DOpData.setInputBitDepth; split <;> rfl

theorem Lut3DOpData.setInputBitDepth_array_length (l : Lut3DOpData) (d : BitDepth) :
    (l.setInputBitDepth d).array.length = l.array.length := by
  unfold Lut3DOpData.setInputBitDepth
  split
  · exact Lut3DArray.scale_length _ _
  · rfl

theorem Lut3DOpData.setInputBitDepth_array_numColorComponents (l : Lut3DOpData) (d : BitDepth) :
    (l.setInputBitDepth d).array.numColorComponents = l.array.numColorComponents := by
  unfold Lut3DOpData.setInputBitDepth
  split
  · exact Lut3DArray.scale_numColorComponents _ _
  · rfl

theorem MakeFastLut3DFromInverse_ok_fields (evalT : EvalTransformType)
    (lut C : Lut3DOpData)
    (h : MakeFastLut3DFromInverse evalT lut = Except.ok C) :
    lut.direction = TransformDirection.inverse ∧
    C.direction = TransformDirection.forward ∧
    C.array.length = max 48 lut.array.length ∧
    C.array.numColorComponents = 3 ∧
    C.bitDepthIn = lut.bitDepthIn ∧
    C.bitDepthOut = lut.bitDepthOut := by
  unfold MakeFastLut3DFromInverse at h
  split at h
  · cases h
  · next hdir =>
    rw [not_not] at hdir
    split at h
    · next e he =>
      rw [Lut3DOpData.new_ok 48 (by norm_num [maxSupportedLength])] at he
      cases he
    · next newDomain hD =>
      rw [Lut3DOpData.new_ok 48 (by norm_num [maxSupportedLength])] at hD
      injection hD with hD'
      subst hD'
      rcases Lut3DOpData.Compose_ok_fields evalT _ _ _ h with
        ⟨h1, h2, h3, h4, _, _, h7, _, _⟩
      refine ⟨hdir, h7, ?_, h2, ?_, h4⟩
      · rw [h1, Lut3DOpData.setOutputBitDepth_array_length,
            Lut3DOpData.setInputBitDepth_array_length]
        rfl
      · rw [h3, Lut3DOpData.setOutputBitDepth_bitDepthIn,
            Lut3DOpData.setInputBitDepth_bitDepthIn]

theorem MakeFastLut3DFromInverse_spec (evalT : EvalTransformType)
    (lut : Lut3DOpData)
    (hdir : lut.direction = TransformDirection.inverse)
    (hlen : lut.array.length ≤ maxSupportedLength) :
    ∃ r, MakeFastLut3DFromInverse evalT lut = Except.ok r := by
  unfold MakeFastLut3DFromInverse
  rw [if_neg (by simp [hdir])]
  rw [Lut3DOpData.new_ok 48 (by norm_num [maxSupportedLength])]
  dsimp only
  apply Lut3DOpData.Compose_spec
  · rw [Lut3DOpData.setOutputBitDepth_bitDepthOut]
  · rw [Lut3DOpData.setOutputBitDepth_array_length,
        Lut3DOpData.setInputBitDepth_array_length]
    norm_num [maxSupportedLength, Lut3DArray.fill_length]
  · exact hlen

/-! ### C2: the fast-inverse builder -/

/-- C2 (amended): `make_fast_lut3d_from_inverse(L_inv)` fails exactly
when `L_inv`'s direction is not Inverse; on an Inverse-direction LUT3D
(within the supported grid bound) it returns a Forward-direction LUT3D
of edge length `max(48, L_inv.L)` — not always 48 — with input
bit-depth `L_inv.bd_in` and output bit-depth `L_inv.bd_out`. -/
theorem makeFast_behavior (evalT : EvalTransformType) (lut : Lut3DOpData)
    (hlen : lut.array.length ≤ maxSupportedLength) :
    (lut.direction ≠ TransformDirection.inverse →
      MakeFastLut3DFromInverse evalT lut =
        Except.error "MakeFastLut3DFromInverse expects an inverse LUT") ∧
    (lut.direction = TransformDirection.inverse →
      ∃ r, MakeFastLut3DFromInverse evalT lut = Except.ok r ∧
        r.direction = TransformDirection.forward ∧
        r.array.length = max 48 lut.array.length ∧
        r.bitDepthIn = lut.bitDepthIn ∧
        r.bitDepthOut = lut.bitDepthOut) := by
  constructor
  · intro h
    unfold MakeFastLut3DFromInverse
    rw [if_pos h]
  · intro hdir
    obtain ⟨r, hr⟩ := MakeFastLut3DFromInverse_spec evalT lut hdir hlen
    rcases MakeFastLut3DFromInverse_ok_fields evalT lut r hr with
      ⟨_, h2, h3, _, h5, h6⟩
    exact ⟨r, hr, h2, h3, h5, h6⟩

/-- A concrete 49-grid inverse-direction LUT3D. -/
def X49 : Lut3DOpData :=
  ⟨BitDepth.U12, BitDepth.U10, ⟨"", []⟩, Interpolation.linear,
   ⟨49, 3, List.replicate (49 * 49 * 49 * 3) 0⟩, TransformDirection.inverse,
   LutInversionQuality.fast, ""⟩

/-- Counterexample to C2 as stated: on the 49-grid inverse LUT3D `X49`
the builder succeeds but returns edge length 49 (the composition picks
`max(48, 49)`), not the claimed 48. -/
theorem makeFast_gridSize_counterexample :
    (MakeFastLut3DFromInverse evalZero X49).map (fun r => r.array.length) =
      Except.ok 49 ∧
    (MakeFastLut3DFromInverse evalZero X49).map (fun r => r.array.length) ≠
      Except.ok 48 := by
  obtain ⟨r, hr⟩ := MakeFastLut3DFromInverse_spec evalZero X49 rfl (by decide)
  rcases MakeFastLut3DFromInverse_ok_fields evalZero X49 r hr with
    ⟨_, _, h3, _, _, _⟩
  have h49 : r.array.length = 49 := by rw [h3]; decide
  rw [hr]
  constructor
  · simp [Except.map, h49]
  · simp [Except.map, h49]

/-- A concrete 2-grid inverse-direction LUT3D for the C2 witness. -/
def W2i : Lut3DOpData :=
  ⟨BitDepth.U12, BitDepth.U10, ⟨"", []⟩, Interpolation.linear,
   ⟨2, 3, List.replicate 24 0⟩, TransformDirection.inverse,
   LutInversionQuality.fast, ""⟩

/-- A concrete forward-direction LUT3D for the C2 witness. -/
def W2f : Lut3DOpData :=
  ⟨BitDepth.U12, BitDepth.U10, ⟨"", []⟩, Interpolation.linear,
   ⟨2, 3, List.replicate 24 0⟩, TransformDirection.forward,
   LutInversionQuality.fast, ""⟩

/-- Witness for the amended C2 at the concrete LUTs `W2f` and `W2i`. -/
theorem makeFast_behavior_witness :
    MakeFastLut3DFromInverse evalZero W2f =
      Except.error "MakeFastLut3DFromInverse expects an inverse LUT" ∧
    (∃ r, MakeFastLut3DFromInverse evalZero W2i = Except.ok r ∧
      r.direction = TransformDirection.forward ∧
      r.array.length = max 48 W2i.array.length ∧
      r.bitDepthIn = W2i.bitDepthIn ∧
      r.bitDepthOut = W2i.bitDepthOut) :=
  ⟨(makeFast_behavior evalZero W2f (by decide)).1 (by decide),
   (makeFast_behavior evalZero W2i (by decide)).2 rfl⟩

/-! ### C7: construction yields the identity fill -/

theorem getD_map_range (n : Nat) (f : Nat → ℚ) (t : Nat) (h : t < n) :
    ((List.range n).map f).getD t 0 = f t := by
  simp [List.getD, List.getElem?_map, List.getElem?_range h]

theorem fillVal_red (L : Nat) (s : ℚ) (idx : Nat) :
    fillVal L s (3 * idx) = ((idx / L / L) % L : Nat) * s := by
  have h1 : 3 * idx % 3 = 0 := by omega
  have h2 : 3 * idx / 3 = idx := by omega
  simp [fillVal, h1, h2]

theorem fillVal_green (L : Nat) (s : ℚ) (idx : Nat) :
    fillVal L s (3 * idx + 1) = ((idx / L) % L : Nat) * s := by
  have h1 : (3 * idx + 1) % 3 = 1 := by omega
  have h2 : (3 * idx + 1) / 3 = idx := by omega
  simp [fillVal, h1, h2]

theorem fillVal_blue (L : Nat) (s : ℚ) (idx : Nat) :
    fillVal L s (3 * idx + 2) = (idx % L : Nat) * s := by
  have h1 : (3 * idx + 2) % 3 = 2 := by omega
  have h2 : (3 * idx + 2) / 3 = idx := by omega
  simp [fillVal, h1, h2]

theorem nat_decode_div (L x r : Nat) (hr : r < L) : (x * L + r) / L = x := by
  have hL : 0 < L := lt_of_le_of_lt (Nat.zero_le r) hr
  rw [mul_comm, Nat.mul_add_div hL, Nat.div_eq_of_lt hr, Nat.add_zero]

theorem nat_decode_mod (L x r : Nat) (hr : r < L) : (x * L + r) % L = r := by
  rw [mul_comm, Nat.mul_add_mod, Nat.mod_eq_of_lt hr]

theorem node_lt_cube (L i j k : Nat) (hi : i < L) (hj : j < L) (hk : k < L) :
    i * L * L + j * L + k < L * L * L := by
  have h1 : i * L + j < L * L := by
    have ha : i * L + j < (i + 1) * L := by
      rw [Nat.succ_mul]
      omega
    exact lt_of_lt_of_le ha (Nat.mul_le_mul_right L hi)
  have h2 : (i * L + j) * L + k < (i * L + j + 1) * L := by
    rw [Nat.succ_mul]
    omega
  have h3 : (i * L + j + 1) * L ≤ (L * L) * L := Nat.mul_le_mul_right L h1
  have h4 : i * L * L + j * L + k = (i * L + j) * L + k := by ring
  rw [h4]
  exact lt_of_lt_of_le h2 (by rw [mul_assoc] at h3 ⊢; exact h3)

theorem node_decode_red (L i j k : Nat) (hi : i < L) (hj : j < L) (hk : k < L) :
    ((i * L * L + j * L + k) / L / L) % L = i := by
  have h4 : i * L * L + j * L + k = (i * L + j) * L + k := by ring
  rw [h4, nat_decode_div L _ _ hk, nat_decode_div L _ _ hj, Nat.mod_eq_of_lt hi]

theorem node_decode_green (L i j k : Nat) (_hi : i < L) (hj : j < L) (hk : k < L) :
    ((i * L * L + j * L + k) / L) % L = j := by
  have h4 : i * L * L + j * L + k = (i * L + j) * L + k := by ring
  rw [h4, nat_decode_div L _ _ hk, nat_decode_mod L _ _ hj]

theorem node_decode_blue (L i j k : Nat) (_hj : j < L) (hk : k < L) :
    (i * L * L + j * L + k) % L = k := by
  have h4 : i * L * L + j * L + k = (i * L + j) * L + k := by ring
  rw [h4, nat_decode_mod L _ _ hk]

theorem EqualWithAbsError_self (a tol : ℚ) (h : 0 ≤ tol) :
    EqualWithAbsError a a tol = true := by
  simp [EqualWithAbsError, h]

theorem Lut3DOpData.validate_ok (l : Lut3DOpData)
    (hv : IsValid l.interpolation = true)
    (hlen : l.array.values.length = l.array.getNumValues)
    (hncc : l.array.numColorComponents = 3)
    (hL : l.array.length ≤ maxSupportedLength) :
    l.validate = Except.ok () := by
  unfold Lut3DOpData.validate
  rw [if_neg (by simp [hv])]
  have harr : l.array.validate = Except.ok () := by
    unfold Lut3DArray.validate
    rw [if_neg (by simp [hlen])]
  rw [harr]
  rw [if_neg (by simp [hncc]), if_neg (by omega)]

theorem fill_getRGB (L : Nat) (c : Nat) (v0 : List ℚ) (d : BitDepth)
    (i j k : Nat) (hi : i < L) (hj : j < L) (hk : k < L) :
    ((Lut3DArray.mk L c v0).fill d).getRGB i j k =
      ((i : ℚ) * (GetBitDepthMaxValue d / ((L : ℚ) - 1)),
       (j : ℚ) * (GetBitDepthMaxValue d / ((L : ℚ) - 1)),
       (k : ℚ) * (GetBitDepthMaxValue d / ((L : ℚ) - 1))) := by
  have hidx : i * L * L + j * L + k < L * L * L := node_lt_cube L i j k hi hj hk
  unfold Lut3DArray.getRGB Lut3DArray.fill
  dsimp only [getMaxColorComponents]
  have hoff : (i * L * L + j * L + k) * 3 = 3 * (i * L * L + j * L + k) := by ring
  rw [hoff]
  rw [getD_map_range _ _ _ (by omega)]
  rw [getD_map_range _ _ _ (by omega)]
  rw [getD_map_range _ _ _ (by omega)]
  rw [fillVal_red, fillVal_green, fillVal_blue]
  rw [node_decode_red L i j k hi hj hk, node_decode_green L i j k hi hj hk,
      node_decode_blue L i j k hj hk]

theorem fill_isIdentity (L : Nat) (c : Nat) (v0 : List ℚ) (d : BitDepth) :
    ((Lut3DArray.mk L c v0).fill d).isIdentity d = true := by
  unfold Lut3DArray.isIdentity Lut3DArray.fill
  dsimp only
  rw [List.all_eq_true]
  intro i hi
  rw [List.mem_range] at hi
  rw [getD_map_range _ _ _ (by omega)]
  rw [getD_map_range _ _ _ (by omega)]
  rw [getD_map_range _ _ _ (by omega)]
  rw [fillVal_red, fillVal_green, fillVal_blue]
  rw [EqualWithAbsError_self _ _ (by norm_num),
      EqualWithAbsError_self _ _ (by norm_num),
      EqualWithAbsError_self _ _ (by norm_num)]
  rfl

/-- C7: for every valid edge length and output bit-depth (and valid
interpolation), a freshly constructed LUT3D holds the identity fill —
node (i, j, k) stores (i·s, j·s, k·s) with s = M(d)/(L−1) — and on it
`is_identity()` is true, `validate()` passes, `is_no_op()` is false and
`has_channel_crosstalk()` is true. -/
theorem newFull_identity_properties (L : Nat) (bdIn bdOut : BitDepth)
    (md : FormatMetadata) (interp : Interpolation)
    (_h2 : 2 ≤ L) (h129 : L ≤ maxSupportedLength) (hv : IsValid interp = true) :
    ∃ l, Lut3DOpData.newFull bdIn bdOut md interp L = Except.ok l ∧
      (∀ i j k, i < L → j < L → k < L →
        l.array.getRGB i j k =
          ((i : ℚ) * (GetBitDepthMaxValue bdOut / ((L : ℚ) - 1)),
           (j : ℚ) * (GetBitDepthMaxValue bdOut / ((L : ℚ) - 1)),
           (k : ℚ) * (GetBitDepthMaxValue bdOut / ((L : ℚ) - 1)))) ∧
      l.isIdentity = true ∧
      l.validate = Except.ok () ∧
      l.isNoOp = false ∧
      l.hasChannelCrosstalk = true := by
  refine ⟨_, Lut3DOpData.newFull_ok bdIn bdOut md interp L h129, ?_, ?_, ?_, rfl, rfl⟩
  · intro i j k hi hj hk
    exact fill_getRGB L 3 _ bdOut i j k hi hj hk
  · exact fill_isIdentity L 3 _ bdOut
  · apply Lut3DOpData.validate_ok
    · exact hv
    · simp [Lut3DArray.fill, Lut3DArray.getNumValues]
      ring
    · rfl
    · simpa [Lut3DArray.fill_length] using h129

/-- Witness for C7 at L = 2, depths U8 to U10, linear interpolation. -/
theorem newFull_identity_properties_witness :
    ∃ l, Lut3DOpData.newFull BitDepth.U8 BitDepth.U10 FormatMetadata.root
        Interpolation.linear 2 = Except.ok l ∧
      (∀ i j k, i < 2 → j < 2 → k < 2 →
        l.array.getRGB i j k =
          ((i : ℚ) * (GetBitDepthMaxValue BitDepth.U10 / ((2 : ℚ) - 1)),
           (j : ℚ) * (GetBitDepthMaxValue BitDepth.U10 / ((2 : ℚ) - 1)),
           (k : ℚ) * (GetBitDepthMaxValue BitDepth.U10 / ((2 : ℚ) - 1)))) ∧
      l.isIdentity = true ∧
      l.validate = Except.ok () ∧
      l.isNoOp = false ∧
      l.hasChannelCrosstalk = true :=
  newFull_identity_properties 2 BitDepth.U8 BitDepth.U10 FormatMetadata.root
    Interpolation.linear (by decide) (by decide) (by decide)

/-! ### C6: the is_inverse algorithm -/

theorem Lut3DOpData.setOutputBitDepth_array_values_length (l : Lut3DOpData) (d : BitDepth) :
    (l.setOutputBitDepth d).array.values.length = l.array.values.length := by
  unfold Lut3DOpData.setOutputBitDepth
  split
  · exact Lut3DArray.scale_values_length _ _
  · rfl

theorem cube_inj (a b : Nat) (h : a * a * a = b * b * b) : a = b := by
  have h' : a ^ 3 = b ^ 3 := by
    have e1 : a ^ 3 = a * a * a := by ring
    have e2 : b ^ 3 = b * b * b := by ring
    rw [e1, e2]
    exact h
  exact Nat.pow_left_injective (by norm_num) h'

theorem arrayEq_iff_valuesEq (a b : Lut3DArray)
    (ha3 : a.numColorComponents = 3) (hb3 : b.numColorComponents = 3)
    (hav : a.values.length = a.length * a.length * a.length * 3)
    (hbv : b.values.length = b.length * b.length * b.length * 3) :
    a = b ↔ a.values = b.values := by
  constructor
  · intro h
    rw [h]
  · intro h
    have hvl : a.values.length = b.values.length := by rw [h]
    rw [hav, hbv] at hvl
    have hlen : a.length = b.length := by
      apply cube_inj
      omega
    cases a
    cases b
    simp_all

theorem isInversePair_iff (f i : Lut3DOpData)
    (hf3 : f.array.numColorComponents = 3)
    (hi3 : i.array.numColorComponents = 3)
    (hfv : f.array.values.length =
      f.array.length * f.array.length * f.array.length * 3)
    (hiv : i.array.values.length =
      i.array.length * i.array.length * i.array.length * 3) :
    Lut3DOpData.isInversePair f i = true ↔
      ((GetBitDepthMaxValue f.bitDepthOut = GetBitDepthMaxValue i.bitDepthIn ∧
          f.array.values = i.array.values) ∨
       (GetBitDepthMaxValue f.bitDepthOut ≠ GetBitDepthMaxValue i.bitDepthIn ∧
          f.array.values.length = i.array.values.length ∧
          (f.clone.setOutputBitDepth i.bitDepthIn).array.values =
            i.array.values)) := by
  unfold Lut3DOpData.isInversePair Lut3DOpData.haveEqualBasics
  by_cases hM : GetBitDepthMaxValue f.bitDepthOut = GetBitDepthMaxValue i.bitDepthIn
  · rw [if_neg (by simpa using hM)]
    simp only [decide_eq_true_eq]
    rw [arrayEq_iff_valuesEq _ _ hf3 hi3 hfv hiv]
    constructor
    · intro h
      exact Or.inl ⟨hM, h⟩
    · rintro (⟨_, h⟩ | ⟨hne, _, _⟩)
      · exact h
      · exact absurd hM hne
  · rw [if_pos hM]
    by_cases hlen : f.array.values.length = i.array.values.length
    · rw [if_neg (by simpa using hlen)]
      simp only [decide_eq_true_eq]
      rw [arrayEq_iff_valuesEq _ _
        (by rw [Lut3DOpData.setOutputBitDepth_array_numColorComponents]; exact hf3)
        hi3
        (by rw [Lut3DOpData.setOutputBitDepth_array_values_length,
                Lut3DOpData.setOutputBitDepth_array_length]; exact hfv)
        hiv]
      constructor
      · intro h
        exact Or.inr ⟨hM, hlen, h⟩
      · rintro (⟨hMeq, _⟩ | ⟨_, _, h⟩)
        · exact absurd hMeq hM
        · exact h
    · rw [if_pos (by simpa using hlen)]
      constructor
      · intro h
        cases h
      · rintro (⟨hMeq, _⟩ | ⟨_, hleq, _⟩)
        · exact absurd hMeq hM
        · exact absurd hleq hlen

/-- C6: `A.is_inverse(B)` is false unless exactly one of the operands
is Forward and the other Inverse; with `Af` the forward one and `Ai`
the inverse one it is true iff either the bit-depth max values of
`Af.bd_out` and `Ai.bd_in` agree and the arrays are pointwise exactly
equal, or else the raw value counts agree and a clone of `Af` whose
output bit-depth is rescaled to `Ai.bd_in` has an array pointwise
exactly equal to `Ai`'s — exact equality, no tolerance. -/
theorem isInverse_algorithm (A B : Lut3DOpData)
    (hA3 : A.array.numColorComponents = 3)
    (hB3 : B.array.numColorComponents = 3)
    (hAv : A.array.values.length =
      A.array.length * A.array.length * A.array.length * 3)
    (hBv : B.array.values.length =
      B.array.length * B.array.length * B.array.length * 3) :
    A.isInverse B = true ↔
      ((A.direction = TransformDirection.forward ∧
        B.direction = TransformDirection.inverse ∧
        ((GetBitDepthMaxValue A.bitDepthOut = GetBitDepthMaxValue B.bitDepthIn ∧
            A.array.values = B.array.values) ∨
         (GetBitDepthMaxValue A.bitDepthOut ≠ GetBitDepthMaxValue B.bitDepthIn ∧
            A.array.values.length = B.array.values.length ∧
            (A.clone.setOutputBitDepth B.bitDepthIn).array.values =
              B.array.values))) ∨
       (A.direction = TransformDirection.inverse ∧
        B.direction = TransformDirection.forward ∧
        ((GetBitDepthMaxValue B.bitDepthOut = GetBitDepthMaxValue A.bitDepthIn ∧
            B.array.values = A.array.values) ∨
         (GetBitDepthMaxValue B.bitDepthOut ≠ GetBitDepthMaxValue A.bitDepthIn ∧
            B.array.values.length = A.array.values.length ∧
            (B.clone.setOutputBitDepth A.bitDepthIn).array.values =
              A.array.values)))) := by
  unfold Lut3DOpData.isInverse
  by_cases h1 : A.direction = TransformDirection.forward ∧
      B.direction = TransformDirection.inverse
  · rw [if_pos h1]
    rw [isInversePair_iff A B hA3 hB3 hAv hBv]
    constructor
    · intro h
      exact Or.inl ⟨h1.1, h1.2, h⟩
    · rintro (⟨_, _, h⟩ | ⟨hd, _, _⟩)
      · exact h
      · rw [h1.1] at hd
        cases hd
  · rw [if_neg h1]
    by_cases h2 : A.direction = TransformDirection.inverse ∧
        B.direction = TransformDirection.forward
    · rw [if_pos h2]
      rw [isInversePair_iff B A hB3 hA3 hBv hAv]
      constructor
      · intro h
        exact Or.inr ⟨h2.1, h2.2, h⟩
      · rintro (⟨hd, _, _⟩ | ⟨_, _, h⟩)
        · rw [h2.1] at hd
          cases hd
        · exact h
    · rw [if_neg h2]
      constructor
      · intro h
        cases h
      · rintro (⟨hd1, hd2, _⟩ | ⟨hd1, hd2, _⟩)
        · exact absurd ⟨hd1, hd2⟩ h1
        · exact absurd ⟨hd1, hd2⟩ h2

/-- A concrete forward LUT3D (U8 to U10, 2-grid) for the C6 witness. -/
def W6A : Lut3DOpData :=
  ⟨BitDepth.U8, BitDepth.U10, ⟨"", []⟩, Interpolation.linear,
   ⟨2, 3, List.replicate 24 0⟩, TransformDirection.forward,
   LutInversionQuality.fast, ""⟩

/-- A concrete inverse LUT3D (U10 to U8, 2-grid) for the C6 witness. -/
def W6B : Lut3DOpData :=
  ⟨BitDepth.U10, BitDepth.U8, ⟨"", []⟩, Interpolation.linear,
   ⟨2, 3, List.replicate 24 0⟩, TransformDirection.inverse,
   LutInversionQuality.fast, ""⟩

/-- Witness for C6 at the concrete pair `W6A`, `W6B`. -/
theorem isInverse_algorithm_witness :
    W6A.isInverse W6B = true ↔
      ((W6A.direction = TransformDirection.forward ∧
        W6B.direction = TransformDirection.inverse ∧
        ((GetBitDepthMaxValue W6A.bitDepthOut = GetBitDepthMaxValue W6B.bitDepthIn ∧
            W6A.array.values = W6B.array.values) ∨
         (GetBitDepthMaxValue W6A.bitDepthOut ≠ GetBitDepthMaxValue W6B.bitDepthIn ∧
            W6A.array.values.length = W6B.array.values.length ∧
            (W6A.clone.setOutputBitDepth W6B.bitDepthIn).array.values =
              W6B.array.values))) ∨
       (W6A.direction = TransformDirection.inverse ∧
        W6B.direction = TransformDirection.forward ∧
        ((GetBitDepthMaxValue W6B.bitDepthOut = GetBitDepthMaxValue W6A.bitDepthIn ∧
            W6B.array.values = W6A.array.values) ∨
         (GetBitDepthMaxValue W6B.bitDepthOut ≠ GetBitDepthMaxValue W6A.bitDepthIn ∧
            W6B.array.values.length = W6A.array.values.length ∧
            (W6B.clone.setOutputBitDepth W6A.bitDepthIn).array.values =
              W6A.array.values)))) :=
  isInverse_algorithm W6A W6B (by decide) (by decide) (by decide) (by decide)

/-! ### C9: grid-size and channel invariants -/

theorem Lut3DOpData.new_fields (L : Nat) (l : Lut3DOpData)
    (h : Lut3DOpData.new L = Except.ok l) :
    l.array.length = L ∧ l.array.numColorComponents = 3 ∧
    L ≤ maxSupportedLength := by
  unfold Lut3DOpData.new at h
  split at h
  · cases h
  · next a ha =>
    injection h with h'
    subst h'
    rcases Lut3DArray.resize_ok_inv _ _ _ _ ha with ⟨h1, h2, h3⟩
    refine ⟨?_, ?_, h3⟩
    · simpa [Lut3DArray.fill_length] using h1
    · simpa [Lut3DArray.fill_numColorComponents] using h2

theorem setArrayFromRedFastestOrder_ok_fields (l r : Lut3DOpData) (v : List ℚ)
    (h : l.setArrayFromRedFastestOrder v = Except.ok r) :
    r.array.length = l.array.length ∧
    r.array.numColorComponents = l.array.numColorComponents := by
  unfold Lut3DOpData.setArrayFromRedFastestOrder at h
  dsimp only at h
  split at h
  · cases h
  · injection h with h'
    subst h'
    exact ⟨rfl, rfl⟩

theorem Reachable_invariant (l : Lut3DOpData) (h : Reachable l) :
    2 ≤ l.array.length ∧ l.array.length ≤ maxSupportedLength ∧
    l.array.numColorComponents = 3 := by
  induction h with
  | new L l h2 h129 hok =>
    rcases Lut3DOpData.new_fields L l hok with ⟨ha, hb, _⟩
    exact ⟨by omega, by omega, hb⟩
  | newFull bdIn bdOut md interp L l h2 h129 hok =>
    rcases Lut3DOpData.newFull_fields bdIn bdOut md interp L l hok with
      ⟨_, _, _, _, _, _, _, ha, hb, _⟩
    exact ⟨by omega, by omega, hb⟩
  | setInterpolation l algo _ ih =>
    simpa [Lut3DOpData.setInterpolation] using ih
  | setInversionQuality l q _ ih =>
    simpa [Lut3DOpData.setInversionQuality] using ih
  | setInputBitDepth l d _ ih =>
    rw [Lut3DOpData.setInputBitDepth_array_length,
        Lut3DOpData.setInputBitDepth_array_numColorComponents]
    exact ih
  | setOutputBitDepth l d _ ih =>
    rw [Lut3DOpData.setOutputBitDepth_array_length,
        Lut3DOpData.setOutputBitDepth_array_numColorComponents]
    exact ih
  | setArrayFromRedFastestOrder l r v _ hok ih =>
    rcases setArrayFromRedFastestOrder_ok_fields l r v hok with ⟨ha, hb⟩
    rw [ha, hb]
    exact ih
  | clone l _ ih =>
    exact ih
  | inverse l _ ih =>
    exact ih
  | compose evalT A B C _ _ hok ihA ihB =>
    rcases Lut3DOpData.Compose_ok_fields evalT A B C hok with
      ⟨h1, h2, _, _, _, _, _, _, _⟩
    rcases ihA with ⟨a1, a2, _⟩
    rcases ihB with ⟨b1, b2, _⟩
    refine ⟨?_, ?_, h2⟩ <;> omega
  | makeFast evalT l C _ hok ih =>
    rcases MakeFastLut3DFromInverse_ok_fields evalT l C hok with
      ⟨_, _, h3, h4, _, _⟩
    rcases ih with ⟨a1, a2, _⟩
    have hm : maxSupportedLength = 129 := rfl
    refine ⟨?_, ?_, h4⟩ <;> omega

theorem must_not_be_greater_infix (L : Nat) :
    "must not be greater".data <:+:
      ("LUT 3D: Grid size '" ++ toString L ++ "' must not be greater than '"
        ++ toString maxSupportedLength ++ "'.").data := by
  refine ⟨("LUT 3D: Grid size '" ++ toString L).data ++ "' ".data,
          (" than '" ++ toString maxSupportedLength ++ "'.").data, ?_⟩
  have hp2 : ("' must not be greater than '" : String).data =
      "' ".data ++ "must not be greater".data ++ " than '".data := by decide
  simp only [String.data_append, List.append_assoc]
  simp [hp2, String.data_append, List.append_assoc]

theorem Lut3DArray.resize_error (a : Lut3DArray) (L c : Nat)
    (h : L > maxSupportedLength) :
    a.resize L c = Except.error ("LUT 3D: Grid size '" ++ toString L
      ++ "' must not be greater than '" ++ toString maxSupportedLength ++ "'.") := by
  unfold Lut3DArray.resize
  rw [if_pos h]

theorem Lut3DOpData.new_error (L : Nat) (h : L > maxSupportedLength) :
    Lut3DOpData.new L = Except.error ("LUT 3D: Grid size '" ++ toString L
      ++ "' must not be greater than '" ++ toString maxSupportedLength ++ "'.") := by
  unfold Lut3DOpData.new
  rw [Lut3DArray.resize_error _ _ _ h]

/-- C9: every LUT3D reachable through the public operations (applied
within their documented input constraints) has edge length
2 ≤ L ≤ 129 and exactly 3 color channels; construction and resize
succeed at L = 129 and fail for L > 129 with an error mentioning
"must not be greater". -/
theorem grid_bounds_invariant :
    (∀ l, Reachable l →
      2 ≤ l.array.length ∧ l.array.length ≤ maxSupportedLength ∧
      l.array.numColorComponents = 3) ∧
    (∀ a : Lut3DArray, a.resize maxSupportedLength 3 = Except.ok
      ⟨maxSupportedLength, 3,
       List.replicate (maxSupportedLength * maxSupportedLength *
         maxSupportedLength * 3) 0⟩) ∧
    (∀ (a : Lut3DArray) (L c : Nat), L > maxSupportedLength →
      ∃ e, a.resize L c = Except.error e ∧
        "must not be greater".data <:+: e.data) ∧
    (∃ l, Lut3DOpData.new maxSupportedLength = Except.ok l) ∧
    (∀ L, L > maxSupportedLength →
      ∃ e, Lut3DOpData.new L = Except.error e ∧
        "must not be greater".data <:+: e.data) := by
  refine ⟨Reachable_invariant, ?_, ?_, ?_, ?_⟩
  · intro a
    exact Lut3DArray.resize_ok a _ _ (le_refl _)
  · intro a L c h
    exact ⟨_, Lut3DArray.resize_error a L c h, must_not_be_greater_infix L⟩
  · exact ⟨_, Lut3DOpData.new_ok maxSupportedLength (le_refl _)⟩
  · intro L h
    exact ⟨_, Lut3DOpData.new_error L h, must_not_be_greater_infix L⟩

/-- The LUT3D built by `Lut3DOpData.new 2`, written out. -/
def W9 : Lut3DOpData :=
  ⟨BitDepth.F32, BitDepth.F32, FormatMetadata.root, Interpolation.default,
   (Lut3DArray.mk 2 3 (List.replicate (2 * 2 * 2 * 3) 0)).fill BitDepth.F32,
   TransformDirection.forward, LutInversionQuality.fast, ""⟩

/-- Witness for C9: the invariant at the reachable LUT3D `W9`, the
boundary length 129 accepted, and 130 rejected with the expected
message fragment. -/
theorem grid_bounds_invariant_witness :
    (2 ≤ W9.array.length ∧ W9.array.length ≤ maxSupportedLength ∧
      W9.array.numColorComponents = 3) ∧
    ((Lut3DArray.mk 0 0 []).resize maxSupportedLength 3 = Except.ok
      ⟨maxSupportedLength, 3,
       List.replicate (maxSupportedLength * maxSupportedLength *
         maxSupportedLength * 3) 0⟩) ∧
    (∃ e, (Lut3DArray.mk 0 0 []).resize 130 3 = Except.error e ∧
      "must not be greater".data <:+: e.data) ∧
    (∃ l, Lut3DOpData.new maxSupportedLength = Except.ok l) ∧
    (∃ e, Lut3DOpData.new 130 = Except.error e ∧
      "must not be greater".data <:+: e.data) :=
  ⟨grid_bounds_invariant.1 W9
      (Reachable.new 2 W9 (by decide) (by decide) (by rfl)),
   grid_bounds_invariant.2.1 _,
   grid_bounds_invariant.2.2.1 _ 130 3 (by decide),
   grid_bounds_invariant.2.2.2.1,
   grid_bounds_invariant.2.2.2.2 130 (by decide)⟩

/-! ### C8: the finalize cache ID -/

/-- A printable lowercase hexadecimal digit. -/
def isHexChar (c : Char) : Bool := "0123456789abcdef".data.contains c

theorem interp_token_no_space (x : Interpolation) :
    ' ' ∉ (InterpolationToString x).data := by
  cases x <;> decide

theorem dir_token_no_space (x : TransformDirection) :
    ' ' ∉ (TransformDirectionToString x).data := by
  cases x <;> decide

theorem bd_token_no_space (x : BitDepth) :
    ' ' ∉ (BitDepthToString x).data := by
  cases x <;> decide

theorem interp_token_inj (x y : Interpolation)
    (h : (InterpolationToString x).data = (InterpolationToString y).data) :
    x = y := by
  cases x <;> cases y <;> revert h <;> decide

theorem dir_token_inj (x y : TransformDirection)
    (h : (TransformDirectionToString x).data = (TransformDirectionToString y).data) :
    x = y := by
  cases x <;> cases y <;> revert h <;> decide

theorem bd_token_inj (x y : BitDepth)
    (h : (BitDepthToString x).data = (BitDepthToString y).data) :
    x = y := by
  cases x <;> cases y <;> revert h <;> decide

theorem append_cons_space_inj (s t u v : List Char)
    (hs : ' ' ∉ s) (ht : ' ' ∉ t)
    (h : s ++ ' ' :: u = t ++ ' ' :: v) : s = t ∧ u = v := by
  induction s generalizing t with
  | nil =>
    cases t with
    | nil => simpa using h
    | cons d t' =>
      exfalso
      rw [List.nil_append] at h
      rw [List.cons_append] at h
      injection h with h1 h2
      apply ht
      rw [← h1]
      exact List.mem_cons_self _ _
  | cons c s' ih =>
    cases t with
    | nil =>
      exfalso
      rw [List.nil_append] at h
      rw [List.cons_append] at h
      injection h with h1 h2
      apply hs
      rw [h1]
      exact List.mem_cons_self _ _
    | cons d t' =>
      rw [List.cons_append, List.cons_append] at h
      injection h with h1 h2
      have hs' : ' ' ∉ s' := fun hm => hs (List.mem_cons_of_mem _ hm)
      have ht' : ' ' ∉ t' := fun hm => ht (List.mem_cons_of_mem _ hm)
      rcases ih t' hs' ht' h2 with ⟨he1, he2⟩
      exact ⟨by rw [h1, he1], he2⟩

theorem cacheID_data (h t1 t2 t3 t4 : String) :
    (h ++ " " ++ t1 ++ " " ++ t2 ++ " " ++ t3 ++ " " ++ t4).data =
      h.data ++ ' ' :: (t1.data ++ ' ' ::
        (t2.data ++ ' ' :: (t3.data ++ ' ' :: t4.data))) := by
  simp [String.data_append]

theorem cacheID_inj_components (hA hB : String)
    (iA iB : Interpolation) (dA dB : TransformDirection)
    (bA bB oA oB : BitDepth)
    (hlenA : hA.length = 32) (hlenB : hB.length = 32)
    (heq : hA ++ " " ++ InterpolationToString iA ++ " "
        ++ TransformDirectionToString dA ++ " "
        ++ BitDepthToString bA ++ " " ++ BitDepthToString oA
      = hB ++ " " ++ InterpolationToString iB ++ " "
        ++ TransformDirectionToString dB ++ " "
        ++ BitDepthToString bB ++ " " ++ BitDepthToString oB) :
    hA = hB ∧ iA = iB ∧ dA = dB ∧ bA = bB ∧ oA = oB := by
  have hdata := congrArg String.data heq
  rw [cacheID_data, cacheID_data] at hdata
  have hlen : hA.data.length = hB.data.length := by
    have h1 : hA.data.length = 32 := hlenA
    have h2 : hB.data.length = 32 := hlenB
    rw [h1, h2]
  obtain ⟨hh, hrest⟩ := List.append_inj hdata hlen
  injection hrest with _ hrest
  obtain ⟨hi, hrest⟩ := append_cons_space_inj _ _ _ _
    (interp_token_no_space iA) (interp_token_no_space iB) hrest
  obtain ⟨hd, hrest⟩ := append_cons_space_inj _ _ _ _
    (dir_token_no_space dA) (dir_token_no_space dB) hrest
  obtain ⟨hb, ho⟩ := append_cons_space_inj _ _ _ _
    (bd_token_no_space bA) (bd_token_no_space bB) hrest
  exact ⟨String.ext hh, interp_token_inj _ _ hi, dir_token_inj _ _ hd,
         bd_token_inj _ _ hb, bd_token_inj _ _ ho⟩

theorem finalize_ok_inv (md5hex : List ℚ → String) (l l' : Lut3DOpData)
    (h : l.finalize md5hex = Except.ok l') :
    l.validate = Except.ok () ∧
    l' = { l with cacheID :=
      (md5hex l.array.values ++ " "
        ++ InterpolationToString l.interpolation ++ " "
        ++ TransformDirectionToString l.direction ++ " "
        ++ BitDepthToString l.bitDepthIn ++ " "
        ++ BitDepthToString l.bitDepthOut) } := by
  unfold Lut3DOpData.finalize at h
  split at h
  · cases h
  · next hv =>
    injection h with h'
    exact ⟨hv, h'.symm⟩

/-- C8: `finalize()` sets the cache ID to the 32-hex-character digest of
the raw float buffer followed by the interpolation, direction, input
depth and output depth names, joined by single spaces with no trailing
space; two finalized LUT3Ds have equal cache IDs iff their buffers,
interpolation, direction, and both bit-depths all agree (given that the
digest is the collision-free content fingerprint the spec requires of
MD5 on those buffers); and inversion quality never affects the cache
ID. -/
theorem finalize_cacheID (md5hex : List ℚ → String)
    (hlen32 : ∀ v, (md5hex v).length = 32)
    (hhex : ∀ v, ∀ c ∈ (md5hex v).data, isHexChar c = true)
    (A A' : Lut3DOpData)
    (hA : A.finalize md5hex = Except.ok A') :
    A'.cacheID = md5hex A.array.values ++ " "
        ++ InterpolationToString A.interpolation ++ " "
        ++ TransformDirectionToString A.direction ++ " "
        ++ BitDepthToString A.bitDepthIn ++ " "
        ++ BitDepthToString A.bitDepthOut ∧
    (md5hex A.array.values).length = 32 ∧
    (∀ c ∈ (md5hex A.array.values).data, isHexChar c = true) ∧
    (∀ q, Lut3DOpData.finalize md5hex { A with invQuality := q } =
      Except.ok { A' with invQuality := q }) ∧
    (∀ (B B' : Lut3DOpData), B.finalize md5hex = Except.ok B' →
      ((md5hex A.array.values = md5hex B.array.values) ↔
        A.array.values = B.array.values) →
      (A'.cacheID = B'.cacheID ↔
        (A.array.values = B.array.values ∧
         A.interpolation = B.interpolation ∧
         A.direction = B.direction ∧
         A.bitDepthIn = B.bitDepthIn ∧
         A.bitDepthOut = B.bitDepthOut))) := by
  rcases finalize_ok_inv md5hex A A' hA with ⟨hval, hA'⟩
  subst hA'
  refine ⟨rfl, hlen32 _, hhex _, ?_, ?_⟩
  · intro q
    have hv : ({ A with invQuality := q } : Lut3DOpData).validate =
        Except.ok () := hval
    unfold Lut3DOpData.finalize
    rw [hv]
  · intro B B' hB hcoll
    rcases finalize_ok_inv md5hex B B' hB with ⟨_, hB'⟩
    subst hB'
    dsimp only
    constructor
    · intro h
      obtain ⟨hh, hi, hd, hb, ho⟩ :=
        cacheID_inj_components _ _ _ _ _ _ _ _ _ _ (hlen32 _) (hlen32 _) h
      exact ⟨hcoll.mp hh, hi, hd, hb, ho⟩
    · rintro ⟨h1, h2, h3, h4, h5⟩
      rw [h1, h2, h3, h4, h5]

/-- A fixed 32-hex-character digest used to instantiate the abstract
fingerprint at the witness. -/
def md5c : List ℚ → String := fun _ => "0123456789abcdef0123456789abcdef"

/-- A concrete valid LUT3D for the C8 witness. -/
def W8 : Lut3DOpData :=
  ⟨BitDepth.U8, BitDepth.U10, ⟨"", []⟩, Interpolation.linear,
   ⟨2, 3, List.replicate 24 0⟩, TransformDirection.forward,
   LutInversionQuality.fast, ""⟩

/-- The result of finalizing `W8` under `md5c`. -/
def W8f : Lut3DOpData :=
  { W8 with cacheID :=
      (md5c W8.array.values ++ " "
        ++ InterpolationToString W8.interpolation ++ " "
        ++ TransformDirectionToString W8.direction ++ " "
        ++ BitDepthToString W8.bitDepthIn ++ " "
        ++ BitDepthToString W8.bitDepthOut) }

/-- Witness for C8 at the concrete LUT3D `W8` under the fingerprint `md5c`. -/
theorem finalize_cacheID_witness :
    W8f.cacheID = md5c W8.array.values ++ " "
        ++ InterpolationToString W8.interpolation ++ " "
        ++ TransformDirectionToString W8.direction ++ " "
        ++ BitDepthToString W8.bitDepthIn ++ " "
        ++ BitDepthToString W8.bitDepthOut ∧
    (md5c W8.array.values).length = 32 := by
  have hl : ∀ v, (md5c v).length = 32 := fun _ =>
    show ("0123456789abcdef0123456789abcdef" : String).length = 32 by decide
  have hx : ∀ v, ∀ c ∈ (md5c v).data, isHexChar c = true := fun _ =>
    show ∀ c ∈ ("0123456789abcdef0123456789abcdef" : String).data,
        isHexChar c = true by decide
  have h := finalize_cacheID md5c hl hx W8 W8f (by rfl)
  exact ⟨h.1, h.2.1⟩
